import Mathlib

/-!
Shallow embedding of the `par` tool's worktree manager, prompt templating and
run pipeline (src/modules/programs/par), together with proofs about the
behaviour its specification describes.

Conventions of the embedding:
* Filesystem paths are strings (the Rust code compares them through
  `to_string_lossy`, so string-level modelling is faithful for the operations
  used here).
* External effects (spawning `git`, opening a repository through `gix`,
  reading prompt storage, rendering with `tera`) are oracles passed in as
  function arguments; functions that issue commands also return the list of
  commands they issued, so "no destructive call" is a provable statement.
* `std::process::Command::output()` returns `Err` only when the process could
  not be spawned; a process that ran and exited non-zero still yields `Ok`.
  The `SpawnOutcome` type mirrors exactly that distinction.
-/

namespace Par

/-- Error enum from src/error.rs; payloads of wrapped foreign errors are
modelled as their display strings. -/
inductive ParError where
  | Config (msg : String)
  | Prompt (msg : String)
  | Worktree (msg : String)
  | Execution (msg : String)
  | Terminal (msg : String)
  | Io (msg : String)
  | Git (msg : String)
  | Serialization (msg : String)
  | Template (msg : String)
  | Other (msg : String)
deriving Repr, DecidableEq

/-- Worktree record from src/modules/programs/par/src/worktree/mod.rs. -/
structure Worktree where
  path : String
  branch : Option String
  isClean : Bool
  remoteUrl : Option String
deriving Repr, DecidableEq

/-- Helper for `containsStr`: does `needle` occur as a contiguous run inside
the haystack list. -/
def containsAux (needle : List Char) : List Char → Bool
  | [] => needle.isEmpty
  | c :: rest => needle.isPrefixOf (c :: rest) || containsAux needle rest

/-- Rust `str::contains(&str)`: substring containment. -/
def containsStr (s pattern : String) : Bool :=
  containsAux pattern.toList s.toList

namespace Glob

/-- Character specifier inside a `[...]` class, from the `glob` crate
(dependency of the worktree manager). -/
inductive CharSpecifier where
  | SingleChar (c : Char)
  | CharRange (lo hi : Char)
deriving Repr, DecidableEq

/-- Token of a compiled glob pattern, from the `glob` crate. -/
inductive PatternToken where
  | Char (c : Char)
  | AnyChar
  | AnySequence
  | AnyRecursiveSequence
  | AnyWithin (specifiers : List CharSpecifier)
  | AnyExcept (specifiers : List CharSpecifier)
deriving Repr, DecidableEq

/-- Error from `glob::Pattern::new`. -/
structure PatternError where
  pos : Nat
  msg : String
deriving Repr, DecidableEq

/-- Compiled glob pattern. -/
structure Pattern where
  tokens : List PatternToken
  original : String
  isRecursive : Bool
deriving Repr, DecidableEq

def ERROR_WILDCARDS : String := "wildcards are either regular `*` or recursive `**`"

def ERROR_RECURSIVE_WILDCARDS : String := "recursive wildcards must form a single path component"

def ERROR_INVALID_RANGE : String := "invalid range pattern"

/-- Display string of a `PatternError` (its `fmt::Display` impl). -/
def PatternError.display (e : PatternError) : String :=
  "Pattern syntax error near position " ++ toString e.pos ++ ": " ++ e.msg

/-- Glob crate `parse_char_specifiers`: a `-` with a character on both sides
forms a range, everything else is a single character. -/
def parseCharSpecifiers : List Char → List CharSpecifier
  | c1 :: '-' :: c2 :: rest => .CharRange c1 c2 :: parseCharSpecifiers rest
  | c :: rest => .SingleChar c :: parseCharSpecifiers rest
  | [] => []

/-- Glob crate `in_char_specifiers`, specialised to the default
case-sensitive `MatchOptions` used by `Pattern::matches`. -/
def inCharSpecifiers (specifiers : List CharSpecifier) (c : Char) : Bool :=
  specifiers.any fun spec =>
    match spec with
    | .SingleChar sc => c = sc
    | .CharRange lo hi => lo ≤ c && c ≤ hi

/-- Parsing loop of `glob::Pattern::new`.  Arguments: remaining characters,
the character just before them (`None` at the start), the current position,
the tokens parsed so far in reverse order, and the `is_recursive` flag.
The run of consecutive `*` characters is examined by direct pattern
matching: three or more is the wildcard error, exactly two is the recursive
wildcard (legal only as a whole path component), one is `AnySequence`. -/
def parseTokens : List Char → Option Char → Nat → List PatternToken → Bool →
    Except PatternError (List PatternToken × Bool)
  | [], _, _, acc, isRec => .ok (acc.reverse, isRec)
  | '?' :: cs, _, i, acc, isRec =>
    parseTokens cs (some '?') (i + 1) (PatternToken.AnyChar :: acc) isRec
  | '*' :: '*' :: '*' :: _, _, i, _, _ => .error ⟨i + 2, ERROR_WILDCARDS⟩
  | '*' :: '*' :: cs, prev, i, acc, isRec =>
    -- a `**` wildcard must form a single path component
    if i = 0 ∨ prev = some '/' then
      match cs with
      | '/' :: rest2 =>
        -- the separator after `**` is consumed together with it
        if acc.length > 1 ∧ acc.head? = some PatternToken.AnyRecursiveSequence then
          parseTokens rest2 (some '/') (i + 3) acc isRec
        else
          parseTokens rest2 (some '/') (i + 3)
            (PatternToken.AnyRecursiveSequence :: acc) true
      | [] =>
        if acc.length > 1 ∧ acc.head? = some PatternToken.AnyRecursiveSequence then
          parseTokens [] (some '*') (i + 2) acc isRec
        else
          parseTokens [] (some '*') (i + 2)
            (PatternToken.AnyRecursiveSequence :: acc) true
      | _ :: _ => .error ⟨i + 2, ERROR_RECURSIVE_WILDCARDS⟩
    else .error ⟨i - 1, ERROR_RECURSIVE_WILDCARDS⟩
  | '*' :: cs, _, i, acc, isRec =>
    parseTokens cs (some '*') (i + 1) (PatternToken.AnySequence :: acc) isRec
  | '[' :: cs, _, i, acc, isRec =>
    match cs with
    | '!' :: c1 :: c2 :: rest2 =>
      match hj : (c2 :: rest2).findIdx? (· = ']') with
      | none => .error ⟨i, ERROR_INVALID_RANGE⟩
      | some j =>
        parseTokens ((c2 :: rest2).drop (j + 1)) (some ']') (i + j + 4)
          (PatternToken.AnyExcept
            (parseCharSpecifiers (c1 :: (c2 :: rest2).take j)) :: acc) isRec
    | c1 :: c2 :: rest2 =>
      if c1 = '!' then .error ⟨i, ERROR_INVALID_RANGE⟩
      else
        match hj : (c2 :: rest2).findIdx? (· = ']') with
        | none => .error ⟨i, ERROR_INVALID_RANGE⟩
        | some j =>
          parseTokens ((c2 :: rest2).drop (j + 1)) (some ']') (i + j + 3)
            (PatternToken.AnyWithin
              (parseCharSpecifiers (c1 :: (c2 :: rest2).take j)) :: acc) isRec
    | _ => .error ⟨i, ERROR_INVALID_RANGE⟩
  | c :: cs, _, i, acc, isRec =>
    parseTokens cs (some c) (i + 1) (PatternToken.Char c :: acc) isRec
termination_by l _ _ _ _ => l.length
decreasing_by
  all_goals simp_wf
  all_goals omega

/-- Glob crate `Pattern::new`. -/
def Pattern.new (pattern : String) : Except PatternError Pattern :=
  match parseTokens pattern.toList none 0 [] false with
  | .error e => .error e
  | .ok (tokens, isRec) => .ok ⟨tokens, pattern, isRec⟩

/-- Three-valued result of the glob crate's matching loop. -/
inductive MatchResult where
  | Match
  | SubPatternDoesntMatch
  | EntirePatternDoesntMatch
deriving Repr, DecidableEq

/-- The character-consuming loop of `matches_from` for an `*` or `**` token:
`f` is `matches_from` applied to the remaining tokens, `isRec` tells whether
the token is `**` (which only retries at path separators).  When the file is
exhausted the Rust `for` loop falls through to the remaining tokens with the
exhausted iterator, which is `f fs []`. -/
def seqLoop (f : Bool → List Char → MatchResult) (isRec : Bool) :
    Bool → List Char → MatchResult
  | fs, [] => f fs []
  | _, c :: fileRest =>
    let fs' := decide (c = '/')
    if isRec && !fs' then seqLoop f isRec fs' fileRest
    else
      match f fs' fileRest with
      | .SubPatternDoesntMatch => seqLoop f isRec fs' fileRest
      | m => m

/-- Glob crate `Pattern::matches_from`, specialised to the default
`MatchOptions` (case-sensitive, separators and leading dots not literal)
used by `Pattern::matches`.  The first argument is `follows_separator`. -/
def matchesFrom : List PatternToken → Bool → List Char → MatchResult
  | [], _, file => if file.isEmpty then .Match else .SubPatternDoesntMatch
  | .AnySequence :: rest, fs, file =>
    (match matchesFrom rest fs file with
     | .SubPatternDoesntMatch => seqLoop (matchesFrom rest) false fs file
     | m => m)
  | .AnyRecursiveSequence :: rest, fs, file =>
    (match matchesFrom rest fs file with
     | .SubPatternDoesntMatch => seqLoop (matchesFrom rest) true fs file
     | m => m)
  | tok :: rest, _, file =>
    match file with
    | [] => .EntirePatternDoesntMatch
    | c :: fileRest =>
      let ok : Bool :=
        match tok with
        | .AnyChar => true
        | .AnyWithin specifiers => inCharSpecifiers specifiers c
        | .AnyExcept specifiers => !inCharSpecifiers specifiers c
        | .Char c2 => c = c2
        | _ => false
      if ok then matchesFrom rest (decide (c = '/')) fileRest
      else .SubPatternDoesntMatch

/-- Glob crate `Pattern::matches` (with the default `MatchOptions`). -/
def Pattern.matches (p : Pattern) (s : String) : Bool :=
  matchesFrom p.tokens true s.toList = .Match

end Glob

/-! Worktree manager, src/modules/programs/par/src/worktree/mod.rs.  The
`WorktreeSettings` fields it reads (`search_paths`, `exclude_patterns`) are
passed as explicit arguments. -/

/-- Method `should_exclude`: a path is excluded when some configured pattern
both compiles as a glob and matches the path string; a pattern that fails to
compile is skipped (the `if let Ok` silently ignores it). -/
def shouldExclude (excludePatterns : List String) (path : String) : Bool :=
  excludePatterns.any fun pattern =>
    match Glob.Pattern.new pattern with
    | .ok globPattern => globPattern.matches path
    | .error _ => false

/-- Method `filter_by_pattern`: compiling the glob first (an invalid pattern
aborts the call), then keeping the worktrees whose path contains the pattern
verbatim, or whose path the glob matches, or whose branch (when present)
contains the pattern verbatim. -/
def filterByPattern (worktrees : List Worktree) (pattern : String) :
    Except ParError (List Worktree) :=
  match Glob.Pattern.new pattern with
  | .error e => .error (.Worktree ("Invalid pattern: " ++ e.display))
  | .ok globPattern =>
    .ok (worktrees.filter fun w =>
      containsStr w.path pattern ||
      globPattern.matches w.path ||
      w.branch.elim false fun b => containsStr b pattern)

/-- Rust `Path::parent` for the plain (no trailing separator) path strings
this embedding builds. -/
def pathParent (s : String) : Option String :=
  if s = "" ∨ s = "/" then none
  else
    match s.toList.reverse.dropWhile (fun c => ¬ c = '/') with
    | [] => some ""
    | ['/'] => some "/"
    | _ :: rest => some (String.mk rest.reverse)

/-- Rust `Path::join` for a plain relative component. -/
def pathJoin (base name : String) : String :=
  if base = "" then name
  else if base.toList.getLast? = some '/' then base ++ name
  else base ++ "/" ++ name

/-- Data read from an openable repository by `validate_worktree`: current
branch (none when detached), the one-status-scan clean flag, and the default
fetch remote's URL. -/
structure RepoInfo where
  branch : Option String
  isClean : Bool
  remoteUrl : Option String
deriving Repr, DecidableEq

/-- Method `validate_worktree`.  The oracle `repoAt` stands for the gix
library calls (`ThreadSafeRepository::open`, `head_name`, `status_iter`,
`find_default_remote`): it yields the repository's data, or the `ParError`
(a `Git` variant in the Rust code) produced when opening or reading the
status fails. -/
def validateWorktree (repoAt : String → Except ParError RepoInfo)
    (path : String) : Except ParError Worktree :=
  match repoAt path with
  | .error e => .error e
  | .ok info => .ok ⟨path, info.branch, info.isClean, info.remoteUrl⟩

mutual
/-- Directory tree as seen by `discover_in_path` through `read_dir`:
a directory's name, whether it contains a `.git` marker, and its
subdirectories in `read_dir` order (plain files are irrelevant: the code
only recurses into entries that are directories).  The children are kept in
the list-isomorphic `FsForest` so the traversal below is structurally
recursive and computes inside the kernel. -/
inductive FsTree where
  | node (name : String) (hasGitMarker : Bool) (children : FsForest)

/-- Sequence of sibling directories, in `read_dir` order. -/
inductive FsForest where
  | nil
  | cons (hd : FsTree) (tl : FsForest)
end

/-- Name of a directory node. -/
def FsTree.name : FsTree → String
  | .node n _ _ => n

mutual
/-- Method `discover_in_path`.  The exclusion test comes first and prunes the
whole subtree; a present `.git` marker triggers validation, whose failure is
silently skipped; then every child directory is searched recursively.  The
Rust signature returns `Result`, but every fallible step is wrapped in
`if let Ok`, so the returned `Result` is always `Ok`; the embedding therefore
returns the accumulated list directly. -/
def discoverInPath (excl : List String) (repoAt : String → Except ParError RepoInfo)
    (path : String) : FsTree → List Worktree
  | .node _ hasGitMarker children =>
    if shouldExclude excl path then []
    else
      (if hasGitMarker then
        match validateWorktree repoAt path with
        | .ok w => [w]
        | .error _ => []
      else []) ++
      discoverChildren excl repoAt path children

/-- The `read_dir` loop inside `discover_in_path`: recurses into each child
directory, whose path is the parent path joined with the entry name. -/
def discoverChildren (excl : List String) (repoAt : String → Except ParError RepoInfo)
    (path : String) : FsForest → List Worktree
  | .nil => []
  | .cons c rest =>
    discoverInPath excl repoAt (pathJoin path c.name) c ++
    discoverChildren excl repoAt path rest
end

/-- Method `discover`: searches every configured root that exists (`none`
models a root whose `exists()` is false). -/
def discover (excl : List String) (repoAt : String → Except ParError RepoInfo)
    (searchPaths : List (String × Option FsTree)) : List Worktree :=
  searchPaths.flatMap fun sp =>
    match sp.2 with
    | some t => discoverInPath excl repoAt sp.1 t
    | none => []

/-- Method `from_directories`: validates an explicit list, dropping failures
silently. -/
def fromDirectories (repoAt : String → Except ParError RepoInfo)
    (paths : List String) : List Worktree :=
  paths.filterMap fun p =>
    match validateWorktree repoAt p with
    | .ok w => some w
    | .error _ => none

/-- Git commands the worktree manager spawns through `std::process::Command`. -/
inductive GitCmd where
  | worktreeAdd (branchName tempPath baseBranch cwd : String)
  | worktreeRemove (path : String)
deriving Repr, DecidableEq

/-- Outcome of `Command::output()`: `spawnError` is the `Err` case (the
process could not be started at all); `exited` is the `Ok` case, which is
returned for every process that ran, whatever its exit code. -/
inductive SpawnOutcome where
  | spawnError (msg : String)
  | exited (exitCode : Int)
deriving Repr, DecidableEq

/-- Method `cleanup_temporary`.  Returns the list of git commands issued
alongside the result.  The guard refuses any path not containing the
`par-temp-` marker before any command is issued; otherwise
`git worktree remove` is spawned and only a spawn failure is reported
(`output()` is `Ok` for a non-zero exit, and the exit status is never
inspected). -/
def cleanupTemporary (run : GitCmd → SpawnOutcome) (worktree : Worktree) :
    List GitCmd × Except ParError Unit :=
  if ¬ containsStr worktree.path "par-temp-" then
    ([], .error (.Worktree "Not a temporary worktree"))
  else
    match run (GitCmd.worktreeRemove worktree.path) with
    | .spawnError e =>
      ([GitCmd.worktreeRemove worktree.path],
       .error (.Git ("Failed to remove worktree: " ++ e)))
    | .exited _ =>
      ([GitCmd.worktreeRemove worktree.path], .ok ())

/-- Method `find_main_repository`: the first `read_dir` entry under any
search path that contains a `.git` marker.  Each search path carries
`none` when its `read_dir` fails (the `if let Ok` skips it), otherwise its
entries as (name, has `.git` marker) pairs. -/
def findMainRepository :
    List (String × Option (List (String × Bool))) → Except ParError String
  | [] => .error (.Worktree "No git repository found")
  | (_, none) :: rest => findMainRepository rest
  | (root, some entries) :: rest =>
    match entries.find? (fun e => e.2) with
    | some e => .ok (pathJoin root e.1)
    | none => findMainRepository rest

/-- Environment for `create_temporary`: the search-path directory listings,
an oracle for `ThreadSafeRepository::open` on the main repository (`some`
is the failure message), the command spawner, the repository oracle used by
`validate_worktree`, and the random token produced by `uuid::Uuid::new_v4`. -/
structure GitEnv where
  searchDirs : List (String × Option (List (String × Bool)))
  openErr : String → Option String
  run : GitCmd → SpawnOutcome
  repoAt : String → Except ParError RepoInfo
  uuid : String

/-- Method `create_temporary`.  Locates a main repository, builds the
`par-temp-`-prefixed name from the fresh uuid, opens the main repository,
spawns `git worktree add -b name path base`, and validates the temporary
path.  As with cleanup, `output()` only fails on a spawn error: the add
command's exit status is never inspected, so after any completed add the
result is whatever `validate_worktree` says about the temporary path. -/
def createTemporary (env : GitEnv) (baseBranch : String) :
    List GitCmd × Except ParError Worktree :=
  match findMainRepository env.searchDirs with
  | .error e => ([], .error e)
  | .ok mainRepo =>
    let tempName := "par-temp-" ++ env.uuid
    match pathParent mainRepo with
    | none => ([], .error (.Worktree "Invalid repository path"))
    | some parent =>
      let tempPath := pathJoin parent tempName
      match env.openErr mainRepo with
      | some e => ([], .error (.Git ("Failed to open repository: " ++ e)))
      | none =>
        let cmd := GitCmd.worktreeAdd tempName tempPath baseBranch mainRepo
        match env.run cmd with
        | .spawnError e =>
          ([cmd], .error (.Git ("Failed to create worktree: " ++ e)))
        | .exited _ => ([cmd], validateWorktree env.repoAt tempPath)

/-! Prompt storage and templating, src/modules/programs/par/src/prompts/mod.rs. -/

/-- Template variable declaration from prompts/mod.rs. -/
structure TemplateVariable where
  name : String
  description : Option String
  default : Option String
  required : Bool
deriving Repr, DecidableEq

/-- Prompt record from prompts/mod.rs.  The `created` timestamp is omitted
(none of the embedded operations reads it), and the `variables` field is
called `varDecls` because `variables` is reserved in Lean. -/
structure Prompt where
  name : String
  content : String
  description : Option String
  template : Bool
  varDecls : List TemplateVariable
deriving Repr, DecidableEq

/-- Model of `HashMap<String, String>` as an association list with unique
keys; lookup (`HashMap::get`). -/
def hashMapGet (m : List (String × String)) (k : String) : Option String :=
  (m.find? fun e => e.1 = k).map fun e => e.2

/-- `HashMap::contains_key`. -/
def hashMapContainsKey (m : List (String × String)) (k : String) : Bool :=
  (m.find? fun e => e.1 = k).isSome

/-- `HashMap::insert`: replace the value when the key is present, append
otherwise. -/
def hashMapInsert (m : List (String × String)) (k v : String) :
    List (String × String) :=
  if hashMapContainsKey m k then
    m.map fun e => if e.1 = k then (k, v) else e
  else m ++ [(k, v)]

/-- Rust `Vec<(String, String)>::into_iter().collect::<HashMap<_, _>>()`:
later pairs with the same key overwrite earlier ones. -/
def collectHashMap (l : List (String × String)) : List (String × String) :=
  l.foldl (fun m e => hashMapInsert m e.1 e.2) []

/-- Method `process_template`.  A non-template prompt's content is returned
unchanged at once; otherwise every declared variable that is required but not
in the map aborts with a `Prompt` error (the first such variable, following
the `for` loop); then a context is built from the declared variables (given
value, else declared default, else empty string) and rendered.  The oracle
`render` stands for `tera`'s `add_raw_template` plus `render`; its error is
the tera error wrapped as `ParError::Template`. -/
def processTemplate (render : String → List (String × String) → Except String String)
    (prompt : Prompt) (vars : List (String × String)) : Except ParError String :=
  if ¬ prompt.template then .ok prompt.content
  else
    match prompt.varDecls.find? (fun v => v.required && ¬ hashMapContainsKey vars v.name) with
    | some v => .error (.Prompt ("Required variable '" ++ v.name ++ "' not provided"))
    | none =>
      let context := prompt.varDecls.map fun v =>
        (v.name, ((hashMapGet vars v.name).or v.default).getD "")
      match render prompt.content context with
      | .error e => .error (.Template e)
      | .ok rendered => .ok rendered

/-! Run pipeline, src/modules/programs/par/src/cli/run.rs
(`RunCommand::execute`). -/

/-- Modelled from the spec: `Job` lives in `crate::executor`, which is not
under src/.  Per the spec it is an immutable value of the target worktree,
the fully rendered instruction text, and the timeout; construction cannot
fail. -/
structure Job where
  worktree : Worktree
  instructionText : String
  timeout : Nat
deriving Repr, DecidableEq

/-- Fields of the `RunCommand` argument struct read by `execute`. -/
structure RunCommand where
  promptName : String
  jobs : Nat
  worktreesFilter : Option String
  directories : List String
  timeout : Nat
  dryRun : Bool
  continueOnFailure : Bool
  templateVars : List (String × String)
  ghostty : Bool
  terminalOutput : Bool

/-- Environment of `RunCommand::execute`: the prompt store
(`PromptManager::get_prompt`), the tera renderer, the repository oracle, the
configured exclude patterns and search roots, and the stages past job
construction.  `runJobs` is modelled from the spec: it stands for
`ExecutorPool::execute`, `ResultAggregator::process_results` and
`Reporter::generate_report` of `crate::executor` / `crate::results`, which
are not under src/; the pipeline only needs that they consume the
constructed jobs and may fail. -/
structure RunEnv where
  getPrompt : String → Except ParError (Option Prompt)
  render : String → List (String × String) → Except String String
  repoAt : String → Except ParError RepoInfo
  excl : List String
  searchPaths : List (String × Option FsTree)
  runJobs : List Job → Except ParError Unit

/-- Method `RunCommand::execute`, from loading the prompt to handing the
constructed jobs to the executor.  Besides the `Result`, it returns the list
of `Job` values constructed during the call, so "no job was constructed" is
a provable statement; every early `return`/`?` path returns `[]`.  Config
and manager construction are handled by the environment; a missing prompt is
the `anyhow!` error (modelled as `ParError.Other`), and so is the
"No worktrees found" `bail!`. -/
def runExecute (env : RunEnv) (cmd : RunCommand) :
    List Job × Except ParError Unit :=
  match env.getPrompt cmd.promptName with
  | .error e => ([], .error e)
  | .ok none =>
    ([], .error (.Other ("Prompt '" ++ cmd.promptName ++ "' not found")))
  | .ok (some prompt) =>
    let templateVars := collectHashMap cmd.templateVars
    let processed :=
      if prompt.template then processTemplate env.render prompt templateVars
      else .ok prompt.content
    match processed with
    | .error e => ([], .error e)
    | .ok processedPrompt =>
      let worktrees0 :=
        if ¬ cmd.directories.isEmpty then fromDirectories env.repoAt cmd.directories
        else discover env.excl env.repoAt env.searchPaths
      let filtered :=
        match cmd.worktreesFilter with
        | some pattern => filterByPattern worktrees0 pattern
        | none => .ok worktrees0
      match filtered with
      | .error e => ([], .error e)
      | .ok worktrees =>
        if worktrees.isEmpty then ([], .error (.Other "No worktrees found"))
        else if cmd.dryRun then ([], .ok ())
        else
          let jobs := worktrees.map fun w =>
            Job.mk w processedPrompt cmd.timeout
          (jobs, env.runJobs jobs)

/-! Concrete environments used to instantiate the theorems below. -/

/-- Compiled form of the glob `*/node_modules/*` (a default exclude pattern
of config/mod.rs and the pattern of the discovery scenario). -/
def nodeModulesGlob : Glob.Pattern :=
  ⟨[.AnySequence, .Char '/', .Char 'n', .Char 'o', .Char 'd', .Char 'e', .Char '_',
    .Char 'm', .Char 'o', .Char 'd', .Char 'u', .Char 'l', .Char 'e', .Char 's',
    .Char '/', .AnySequence], "*/node_modules/*", false⟩

/-- Compiled form of the plain glob `proj`. -/
def projGlob : Glob.Pattern :=
  ⟨[.Char 'p', .Char 'r', .Char 'o', .Char 'j'], "proj", false⟩

/-- Repository oracle of the discovery scenario: `/r/proj` and
`/r/proj/node_modules/pkg` open as clean repositories on branch `main`,
nothing else opens. -/
def scenarioRepoAt : String → Except ParError RepoInfo := fun p =>
  if p = "/r/proj" ∨ p = "/r/proj/node_modules/pkg" then
    .ok ⟨some "main", true, none⟩
  else .error (.Git "Failed to open repository: not a repository")

/-- Directory tree of the discovery scenario: `/r` containing the repository
`proj`, which contains `node_modules/pkg`, itself carrying a repository
marker. -/
def scenarioTree : FsTree :=
  .node "r" false (.cons
    (.node "proj" true (.cons
      (.node "node_modules" false (.cons
        (.node "pkg" true .nil) .nil)) .nil)) .nil)

/-- Worktree list used to instantiate the filtering theorems. -/
def demoWorktrees : List Worktree :=
  [⟨"/home/u/projects/alpha", some "main", true, none⟩,
   ⟨"/home/u/work/beta", some "feature/proj-fix", false, some "ssh://example/beta"⟩,
   ⟨"/home/u/work/gamma", none, true, none⟩]

/-- Environment in which `git worktree add` runs but exits 1, while the
temporary path nevertheless opens as a repository (as when the directory
already existed as a checkout and the add refused to overwrite it). -/
def envAddNonzero : GitEnv where
  searchDirs := [("/repos", some [("proj", true)])]
  openErr := fun _ => none
  run := fun _ => .exited 1
  repoAt := fun p =>
    if p = "/repos/par-temp-u1" then .ok ⟨some "par-temp-u1", true, none⟩
    else .error (.Git "Failed to open repository: no such path")
  uuid := "u1"

/-- Environment with no repository under any search root. -/
def envNoMain : GitEnv where
  searchDirs := []
  openErr := fun _ => none
  run := fun _ => .exited 0
  repoAt := fun _ => .error (.Git "Failed to open repository: no such path")
  uuid := "u0"

/-- Environment in which the add command exits 1 and the temporary path does
not validate (the ordinary failed-add situation). -/
def envNoValidate : GitEnv where
  searchDirs := [("/repos", some [("proj", true)])]
  openErr := fun _ => none
  run := fun _ => .exited 1
  repoAt := fun _ => .error (.Git "Failed to open repository: no such path")
  uuid := "u2"

/-- Environment in which creating a temporary worktree fully succeeds. -/
def envCreateOk : GitEnv where
  searchDirs := [("/repos", some [("proj", true)])]
  openErr := fun _ => none
  run := fun _ => .exited 0
  repoAt := fun p =>
    if p = "/repos/par-temp-u3" then .ok ⟨some "par-temp-u3", true, none⟩
    else .error (.Git "Failed to open repository: no such path")
  uuid := "u3"

/-- Template prompt declaring one required variable `task`. -/
def promptMissingVar : Prompt :=
  ⟨"fix", "Do {{ task }}", none, true, [⟨"task", none, none, true⟩]⟩

/-- Non-template prompt that still declares a required variable. -/
def promptPlain : Prompt :=
  ⟨"notes", "plain body", none, false, [⟨"task", none, none, true⟩]⟩

/-- Run-pipeline environment whose prompt store holds `promptMissingVar`. -/
def runEnvDemo : RunEnv where
  getPrompt := fun n => if n = "fix" then .ok (some promptMissingVar) else .ok none
  render := fun content _ => .ok content
  repoAt := fun _ => .error (.Git "Failed to open repository: no such path")
  excl := []
  searchPaths := []
  runJobs := fun _ => .ok ()

/-- Invocation of the run command naming `promptMissingVar` and supplying no
template variables. -/
def runCmdDemo : RunCommand :=
  ⟨"fix", 4, none, [], 1800, false, false, [], false, false⟩

/-! Helper lemmas. -/

theorem isPrefixOf_append_self (p l : List Char) : p.isPrefixOf (p ++ l) = true := by
  induction p with
  | nil => simp [List.isPrefixOf]
  | cons c rest ih => simp [List.isPrefixOf, ih]

theorem containsAux_append_inner (x p l : List Char) :
    containsAux p (x ++ (p ++ l)) = true := by
  induction x with
  | nil =>
    cases p with
    | nil => cases l <;> simp [containsAux, List.isPrefixOf]
    | cons c rest => simp [containsAux, isPrefixOf_append_self]
  | cons d x ih => simp [containsAux, ih]

theorem containsStr_append_inner (x pat u : String) :
    containsStr (x ++ (pat ++ u)) pat = true := by
  unfold containsStr
  rw [show (x ++ (pat ++ u)).toList = x.toList ++ (pat.toList ++ u.toList) by
    simp [String.toList, String.data_append]]
  exact containsAux_append_inner x.toList pat.toList u.toList

theorem containsStr_pathJoin_marker (parent u : String) :
    containsStr (pathJoin parent ("par-temp-" ++ u)) "par-temp-" = true := by
  unfold pathJoin
  split
  · simpa using containsStr_append_inner "" "par-temp-" u
  · split
    · exact containsStr_append_inner parent "par-temp-" u
    · exact containsStr_append_inner (parent ++ "/") "par-temp-" u

theorem find?_some_of_mem {α : Type} (l : List α) (p : α → Bool) (x : α)
    (hx : x ∈ l) (hp : p x = true) :
    ∃ y, l.find? p = some y ∧ p y = true := by
  have h1 : (l.find? p).isSome := List.find?_isSome.mpr ⟨x, hx, hp⟩
  rcases Option.isSome_iff_exists.mp h1 with ⟨y, hy⟩
  exact ⟨y, hy, List.find?_some hy⟩

theorem nodeModulesGlob_new :
    Glob.Pattern.new "*/node_modules/*" = .ok nodeModulesGlob := by
  simp [Glob.Pattern.new, Glob.parseTokens, nodeModulesGlob]

/-- Shape of every successful `createTemporary` run: a main repository was
found, it had a parent directory, and the `par-temp-` path built under that
parent validated; the returned worktree is exactly the validated record at
that path. -/
theorem createTemporary_ok_inv (env : GitEnv) (baseBranch : String)
    (tr : List GitCmd) (w : Worktree)
    (h : createTemporary env baseBranch = (tr, Except.ok w)) :
    ∃ mainRepo parent info,
      findMainRepository env.searchDirs = .ok mainRepo ∧
      pathParent mainRepo = some parent ∧
      env.repoAt (pathJoin parent ("par-temp-" ++ env.uuid)) = .ok info ∧
      w = ⟨pathJoin parent ("par-temp-" ++ env.uuid), info.branch, info.isClean,
           info.remoteUrl⟩ := by
  unfold createTemporary validateWorktree at h
  rcases hf : findMainRepository env.searchDirs with e | mainRepo <;> simp only [hf] at h
  · simp at h
  · rcases hp : pathParent mainRepo with _ | parent <;> simp only [hp] at h
    · simp at h
    · rcases ho : env.openErr mainRepo with _ | e2 <;> simp only [ho] at h
      · rcases hrun : env.run (GitCmd.worktreeAdd ("par-temp-" ++ env.uuid)
            (pathJoin parent ("par-temp-" ++ env.uuid)) baseBranch mainRepo) with e3 | code <;>
          simp only [hrun] at h
        · simp at h
        · rcases hv : env.repoAt (pathJoin parent ("par-temp-" ++ env.uuid)) with e4 | info <;>
            simp only [hv] at h
          · simp at h
          · refine ⟨mainRepo, parent, info, rfl, hp, hv, ?_⟩
            rw [Prod.mk.injEq] at h
            obtain ⟨-, h3⟩ := h
            injection h3 with h4
            exact h4.symm
      · simp at h

/-! Claim theorems. -/

/-- C1: for every Worktree whose path string does not contain the reserved
`par-temp-` marker, `cleanup_temporary` returns a `Worktree` error
immediately and issues no destructive call: the trace of spawned git
commands is empty, whatever the spawner would have answered. -/
theorem cleanup_refuses_non_temporary (run : GitCmd → SpawnOutcome) (w : Worktree)
    (h : containsStr w.path "par-temp-" = false) :
    cleanupTemporary run w =
      ([], Except.error (ParError.Worktree "Not a temporary worktree")) := by
  simp [cleanupTemporary, h]

theorem cleanup_refuses_non_temporary_witness :
    containsStr "/home/user/projects/app" "par-temp-" = false ∧
    cleanupTemporary (fun _ => SpawnOutcome.exited 0)
        ⟨"/home/user/projects/app", some "main", true, none⟩ =
      ([], Except.error (ParError.Worktree "Not a temporary worktree")) :=
  ⟨by decide, cleanup_refuses_non_temporary _ _ (by decide)⟩

/-- C2 (behaviour at the failing input): on a marked path whose
`git worktree remove` runs and exits 128 — the second cleanup of an
already-removed worktree — `cleanup_temporary` still returns `Ok`:
`Command::output()` is `Ok` for a completed process and the exit status is
never inspected, so no `GitError` is produced. -/
theorem cleanup_ignores_nonzero_exit :
    cleanupTemporary (fun _ => SpawnOutcome.exited 128)
        ⟨"/repos/par-temp-abc", none, true, none⟩ =
      ([GitCmd.worktreeRemove "/repos/par-temp-abc"], Except.ok ()) := rfl

/-- C3: a candidate path matching the exclude-pattern set is pruned before
any repository open is attempted — the subtree contributes nothing whatever
the repository oracle or the tree under it — and on the scenario
(exclude `*/node_modules/*`, repositories at `/r/proj` and at
`/r/proj/node_modules/pkg`) discovery returns only `/r/proj`. -/
theorem discover_excludes_before_open :
    (∀ (excl : List String) (repoAt : String → Except ParError RepoInfo)
        (path : String) (t : FsTree),
        shouldExclude excl path = true → discoverInPath excl repoAt path t = []) ∧
    discover ["*/node_modules/*"] scenarioRepoAt [("/r", some scenarioTree)] =
      [⟨"/r/proj", some "main", true, none⟩] := by
  constructor
  · intro excl repoAt path t h
    cases t with
    | node name g children => simp [discoverInPath, h]
  · simp +decide only [discover, discoverInPath, discoverChildren, shouldExclude,
      scenarioTree, List.any_cons, List.any_nil, nodeModulesGlob_new,
      List.flatMap_cons, List.flatMap_nil, validateWorktree, scenarioRepoAt,
      pathJoin, FsTree.name]

theorem discover_excludes_before_open_witness :
    shouldExclude ["*/node_modules/*"] "/r/proj/node_modules/pkg" = true ∧
    discoverInPath ["*/node_modules/*"] scenarioRepoAt "/r/proj/node_modules/pkg"
      scenarioTree = [] := by
  have h : shouldExclude ["*/node_modules/*"] "/r/proj/node_modules/pkg" = true := by
    simp +decide only [shouldExclude, List.any_cons, List.any_nil, nodeModulesGlob_new]
  exact ⟨h, discover_excludes_before_open.1 _ scenarioRepoAt _ scenarioTree h⟩

/-- C4: for every worktree list and every pattern compiling as a glob,
`filter_by_pattern` succeeds and keeps a worktree exactly when its path
contains the pattern verbatim, or the glob matches the path, or the branch
(when present) contains the pattern verbatim. -/
theorem filter_by_pattern_keeps_iff (worktrees : List Worktree) (pattern : String)
    (gp : Glob.Pattern) (h : Glob.Pattern.new pattern = .ok gp) :
    ∃ kept, filterByPattern worktrees pattern = .ok kept ∧
      ∀ w, w ∈ kept ↔ w ∈ worktrees ∧
        (containsStr w.path pattern = true ∨ gp.matches w.path = true ∨
         ∃ b, w.branch = some b ∧ containsStr b pattern = true) := by
  refine ⟨worktrees.filter fun w =>
      containsStr w.path pattern || gp.matches w.path ||
      w.branch.elim false fun b => containsStr b pattern, ?_, ?_⟩
  · simp [filterByPattern, h]
  · intro w
    rw [List.mem_filter]
    refine and_congr_right fun _ => ?_
    cases hb : w.branch <;>
      simp [hb, Option.elim, Bool.or_eq_true, or_assoc]

theorem filter_by_pattern_keeps_iff_witness :
    ∃ kept, filterByPattern demoWorktrees "proj" = .ok kept ∧
      ∀ w, w ∈ kept ↔ w ∈ demoWorktrees ∧
        (containsStr w.path "proj" = true ∨ projGlob.matches w.path = true ∨
         ∃ b, w.branch = some b ∧ containsStr b "proj" = true) :=
  filter_by_pattern_keeps_iff demoWorktrees "proj" projGlob
    (by simp [Glob.Pattern.new, Glob.parseTokens, projGlob])

/-- C5: for every worktree list and every pattern that does not compile as a
glob, `filter_by_pattern` aborts the whole call with a `Worktree` error and
returns no worktrees. -/
theorem filter_by_pattern_invalid_aborts (worktrees : List Worktree)
    (pattern : String) (e : Glob.PatternError)
    (h : Glob.Pattern.new pattern = .error e) :
    filterByPattern worktrees pattern =
      .error (ParError.Worktree ("Invalid pattern: " ++ e.display)) := by
  simp [filterByPattern, h]

theorem filter_by_pattern_invalid_aborts_witness :
    filterByPattern demoWorktrees "[" =
      .error (ParError.Worktree ("Invalid pattern: " ++
        (Glob.PatternError.mk 0 Glob.ERROR_INVALID_RANGE).display)) :=
  filter_by_pattern_invalid_aborts demoWorktrees "["
    ⟨0, Glob.ERROR_INVALID_RANGE⟩ (by simp [Glob.Pattern.new, Glob.parseTokens])

/-- C6 (counterexample to the claim as stated): an environment in which the
worktree-add command runs and exits 1, yet `create_temporary` returns `Ok`:
the exit status is never inspected, and here the temporary path happens to
validate as a repository. -/
theorem create_temporary_nonzero_exit_ok :
    envAddNonzero.run (GitCmd.worktreeAdd "par-temp-u1" "/repos/par-temp-u1"
        "main" "/repos/proj") = SpawnOutcome.exited 1 ∧
    createTemporary envAddNonzero "main" =
      ([GitCmd.worktreeAdd "par-temp-u1" "/repos/par-temp-u1" "main" "/repos/proj"],
       Except.ok ⟨"/repos/par-temp-u1", some "par-temp-u1", true, none⟩) :=
  ⟨rfl, rfl⟩

/-- C6 (amended): `create_temporary` fails whenever no main repository is
found (the error propagates unchanged); it never inspects the worktree-add
exit status, so after a completed add it fails precisely when the
temporary path fails validation — in particular it cannot return a worktree
when the repository oracle rejects that path. -/
theorem create_temporary_failure_modes :
    (∀ (env : GitEnv) (baseBranch : String) (e : ParError),
        findMainRepository env.searchDirs = .error e →
        createTemporary env baseBranch = ([], .error e)) ∧
    (∀ (env : GitEnv) (baseBranch mainRepo parent : String) (e : ParError),
        findMainRepository env.searchDirs = .ok mainRepo →
        pathParent mainRepo = some parent →
        env.repoAt (pathJoin parent ("par-temp-" ++ env.uuid)) = .error e →
        ∀ (tr : List GitCmd) (w : Worktree),
          createTemporary env baseBranch ≠ (tr, Except.ok w)) := by
  constructor
  · intro env baseBranch e h
    simp [createTemporary, h]
  · intro env baseBranch mainRepo parent e h1 h2 h3 tr w hcontra
    obtain ⟨m2, p2, info, hm, hp, hr, -⟩ :=
      createTemporary_ok_inv env baseBranch tr w hcontra
    rw [h1] at hm
    injection hm with hm2
    subst hm2
    rw [h2] at hp
    injection hp with hp2
    subst hp2
    rw [h3] at hr
    exact absurd hr (by simp)

theorem create_temporary_failure_modes_witness :
    createTemporary envNoMain "main" =
      ([], .error (ParError.Worktree "No git repository found")) ∧
    ∀ (tr : List GitCmd) (w : Worktree),
      createTemporary envNoValidate "main" ≠ (tr, Except.ok w) :=
  ⟨create_temporary_failure_modes.1 envNoMain "main" _ rfl,
   create_temporary_failure_modes.2 envNoValidate "main" "/repos/proj" "/repos"
     (ParError.Git "Failed to open repository: no such path") rfl rfl rfl⟩

/-- C7: every worktree returned by `create_temporary` sits at a path whose
directory name is the reserved literal `par-temp-` followed by the fresh
random token, its path therefore contains the marker, and the
`cleanup_temporary` guard accepts it: cleanup on it always issues the
worktree-remove command. -/
theorem create_temporary_carries_marker (env : GitEnv) (baseBranch : String)
    (tr : List GitCmd) (w : Worktree)
    (h : createTemporary env baseBranch = (tr, Except.ok w)) :
    (∃ parent, w.path = pathJoin parent ("par-temp-" ++ env.uuid)) ∧
    containsStr w.path "par-temp-" = true ∧
    ∀ run, (cleanupTemporary run w).1 = [GitCmd.worktreeRemove w.path] := by
  obtain ⟨mainRepo, parent, info, -, -, -, hw⟩ :=
    createTemporary_ok_inv env baseBranch tr w h
  subst hw
  refine ⟨⟨parent, rfl⟩, containsStr_pathJoin_marker parent env.uuid, ?_⟩
  intro run
  cases hrun : run (GitCmd.worktreeRemove (pathJoin parent ("par-temp-" ++ env.uuid))) <;>
    simp [cleanupTemporary, containsStr_pathJoin_marker parent env.uuid, hrun]

theorem create_temporary_carries_marker_witness :
    (∃ parent, (Worktree.mk "/repos/par-temp-u3" (some "par-temp-u3") true none).path =
      pathJoin parent ("par-temp-" ++ envCreateOk.uuid)) ∧
    containsStr (Worktree.mk "/repos/par-temp-u3" (some "par-temp-u3") true none).path
      "par-temp-" = true ∧
    ∀ run, (cleanupTemporary run
        (Worktree.mk "/repos/par-temp-u3" (some "par-temp-u3") true none)).1 =
      [GitCmd.worktreeRemove
        (Worktree.mk "/repos/par-temp-u3" (some "par-temp-u3") true none).path] :=
  create_temporary_carries_marker envCreateOk "main"
    [GitCmd.worktreeAdd "par-temp-u3" "/repos/par-temp-u3" "main" "/repos/proj"]
    (Worktree.mk "/repos/par-temp-u3" (some "par-temp-u3") true none) rfl

/-- C8: when the named prompt is a template declaring a required variable
absent from the collected variable map, `process_template` returns a
`Prompt` error naming a missing required variable, and `execute` of the run
command surfaces exactly that error with an empty list of constructed jobs —
the failure happens before any `Job` value exists. -/
theorem template_error_before_jobs (env : RunEnv) (cmd : RunCommand)
    (prompt : Prompt) (v : TemplateVariable)
    (hget : env.getPrompt cmd.promptName = .ok (some prompt))
    (htm : prompt.template = true)
    (hv : v ∈ prompt.varDecls) (hreq : v.required = true)
    (hmiss : hashMapContainsKey (collectHashMap cmd.templateVars) v.name = false) :
    ∃ name,
      processTemplate env.render prompt (collectHashMap cmd.templateVars) =
        .error (ParError.Prompt ("Required variable '" ++ name ++ "' not provided")) ∧
      runExecute env cmd =
        ([], .error (ParError.Prompt ("Required variable '" ++ name ++ "' not provided"))) := by
  obtain ⟨v0, hfind, -⟩ := find?_some_of_mem prompt.varDecls
    (fun v2 => v2.required &&
      !hashMapContainsKey (collectHashMap cmd.templateVars) v2.name)
    v hv (by simp [hreq, hmiss])
  refine ⟨v0.name, ?_, ?_⟩
  · simp [processTemplate, htm, hfind]
  · simp [runExecute, hget, htm, processTemplate, hfind]

theorem template_error_before_jobs_witness :
    ∃ name,
      processTemplate runEnvDemo.render promptMissingVar
          (collectHashMap runCmdDemo.templateVars) =
        .error (ParError.Prompt ("Required variable '" ++ name ++ "' not provided")) ∧
      runExecute runEnvDemo runCmdDemo =
        ([], .error (ParError.Prompt ("Required variable '" ++ name ++ "' not provided"))) :=
  template_error_before_jobs runEnvDemo runCmdDemo promptMissingVar
    ⟨"task", none, none, true⟩ rfl rfl (by decide) rfl (by decide)

/-- C9: a configured exclude pattern that does not compile as a glob is
silently skipped by `should_exclude`: inserting it anywhere in the pattern
list changes no verdict for any path (and the call still returns a plain
boolean — nothing aborts), in contrast to `filter_by_pattern`, where an
invalid glob aborts the call. -/
theorem should_exclude_skips_invalid (pat : String) (e : Glob.PatternError)
    (h : Glob.Pattern.new pat = .error e) (pre post : List String) (path : String) :
    shouldExclude (pre ++ pat :: post) path = shouldExclude (pre ++ post) path := by
  simp [shouldExclude, List.any_append, List.any_cons, h]

theorem should_exclude_skips_invalid_witness :
    shouldExclude ([] ++ "[" :: ["*/node_modules/*"]) "/r/proj/node_modules/pkg" =
      shouldExclude ([] ++ ["*/node_modules/*"]) "/r/proj/node_modules/pkg" :=
  should_exclude_skips_invalid "[" ⟨0, Glob.ERROR_INVALID_RANGE⟩
    (by simp [Glob.Pattern.new, Glob.parseTokens]) [] ["*/node_modules/*"]
    "/r/proj/node_modules/pkg"

/-- C10: for every prompt with `template = false` and every variable map —
including maps missing variables the prompt declares as required —
`process_template` returns the prompt's content unchanged: no validation,
no substitution, no rendering (the renderer is never consulted). -/
theorem process_template_skips_non_template
    (render : String → List (String × String) → Except String String)
    (prompt : Prompt) (vars : List (String × String))
    (h : prompt.template = false) :
    processTemplate render prompt vars = .ok prompt.content := by
  simp [processTemplate, h]

theorem process_template_skips_non_template_witness :
    processTemplate (fun _ _ => .error "renderer must not be consulted")
      promptPlain [] = .ok "plain body" :=
  process_template_skips_non_template _ promptPlain [] rfl

end Par
